import Mathlib

/-!
Verification development for the claude-gsuite-admin-mcp credential manager
and tool-dispatch layer.

The definitions below are a shallow embedding of the Python sources:
- `src/claude_gsuite_admin/auth/oauth_manager.py` (`OAuthManager`),
- `src/claude_gsuite_admin/server.py` (`call_tool`, `add_tool_handler`,
  `get_tool_handler`, `setup_oauth2`),
- `src/claude_gsuite_admin/core/exceptions.py` (exception hierarchy),
- `src/claude_gsuite_admin/core/tool_handler.py` (`paginate_results`).

Python dicts are modelled as association lists with unique keys; files on
disk are a map from user id to file content; network effects (token refresh,
revocation) are oracles packaged in `Env`; Python exceptions are values of
`PyExc` and a `try` body is a value of `Except PyExc _`.
-/

namespace GSuiteAdmin

/-! ## List-of-characters helpers, used only to state properties of strings -/

/-- Whether the first character list is an initial segment of the second. -/
def startsWithChars : List Char → List Char → Bool
  | [], _ => true
  | _ :: _, [] => false
  | a :: as, b :: bs => a = b && startsWithChars as bs

/-- Whether the first character list occurs contiguously inside the second. -/
def hasSubChars (sub : List Char) : List Char → Bool
  | [] => startsWithChars sub []
  | b :: bs => startsWithChars sub (b :: bs) || hasSubChars sub bs

/-- Whether `sub` occurs as a contiguous substring of `s`. -/
def strContains (s sub : String) : Bool := hasSubChars sub.data s.data

/-! ## Python dict operations (association lists with unique keys)

`dictSet` replaces in place (Python assignment to an existing key keeps the
key's position); `dictDelete` removes the binding of a key; `dictGet` is
`dict.get` / `in`. -/

/-- Lookup in a Python dict. -/
def dictGet {α : Type} (k : String) : List (String × α) → Option α
  | [] => none
  | (k', v) :: rest => if k' = k then some v else dictGet k rest

/-- Assignment `d[k] = v` into a Python dict. -/
def dictSet {α : Type} (k : String) (v : α) : List (String × α) → List (String × α)
  | [] => [(k, v)]
  | (k', v') :: rest => if k' = k then (k', v) :: rest else (k', v') :: dictSet k v rest

/-- Deletion `del d[k]` from a Python dict (removes every binding of `k`;
on unique-key lists this is exactly Python's single-binding removal). -/
def dictDelete {α : Type} (k : String) : List (String × α) → List (String × α)
  | [] => []
  | (k', v') :: rest => if k' = k then dictDelete k rest else (k', v') :: dictDelete k rest

/-- The key list of a Python dict, in insertion order (`list(d.keys())`). -/
def dictKeys {α : Type} (d : List (String × α)) : List String := d.map Prod.fst

/-- Python's `", ".join(xs)`. -/
def joinComma : List String → String
  | [] => ""
  | [a] => a
  | a :: b :: rest => a ++ ", " ++ joinComma (b :: rest)

/-! ## Data model -/

/-- One user's OAuth2 credential (`oauth2client.OAuth2Credentials`), with the
fields the spec and the persistence format care about. `expiry` is an
absolute timestamp (seconds). -/
structure Credential where
  access_token : String
  refresh_token : String
  expiry : Int
  scopes : List String
  token_type : String
deriving DecidableEq

/-- Content of the on-disk credential file `.oauth2.<user_id>.json` for one
user. `parsed c` is a file whose JSON parses back to `c` (the external
library's `to_json`/`from_json` pair is modelled as lossless, as the file
format is an external-library contract); `unparsable` is a file on which
`json.load` or `OAuth2Credentials.from_json` raises. A user with no file is
simply absent from the disk map. -/
inductive FileContent where
  | unparsable
  | parsed (c : Credential)
deriving DecidableEq

/-- Outcome of the external token-endpoint call `credentials.refresh(http)`:
either the credential object is mutated into `c'`, or the call raises. -/
inductive RefreshOutcome where
  | ok (c' : Credential)
  | failed
deriving DecidableEq

/-- The external world: the current time (used by `access_token_expired`),
the token-refresh endpoint, and whether `credentials.revoke(http)` succeeds. -/
structure Env where
  now : Int
  refreshAt : Credential → RefreshOutcome
  revokeOk : Credential → Bool

/-- `OAuth2Credentials.access_token_expired`: the token expiry is at or
before the current time. -/
def access_token_expired (now : Int) (c : Credential) : Bool :=
  decide (c.expiry ≤ now)

/-- The mutable state of one `OAuthManager` instance: its in-memory
credential cache `_cached_credentials`. The disk is shared between all
manager instances and threaded separately. -/
structure OAuthManager where
  cache : List (String × Credential)
deriving DecidableEq

/-- `OAuthManager.save_credentials`: write the credential file for the user
and populate the cache (the file write is modelled as succeeding). Returns
the updated manager and disk. -/
def save_credentials (m : OAuthManager) (disk : List (String × FileContent))
    (user_id : String) (c : Credential) :
    OAuthManager × List (String × FileContent) :=
  (⟨dictSet user_id c m.cache⟩, dictSet user_id (FileContent.parsed c) disk)

/-- `OAuthManager.get_stored_credentials`: cache hit is returned as-is;
otherwise the file is read; a missing or unparsable file yields `none`;
an expired parsed credential is refreshed (refresh failure yields `none`,
success is persisted via `save_credentials` and cached); a live parsed
credential is cached and returned. Returns the result, the updated manager,
and the updated disk. -/
def get_stored_credentials (env : Env) (m : OAuthManager)
    (disk : List (String × FileContent)) (user_id : String) :
    Option Credential × OAuthManager × List (String × FileContent) :=
  match dictGet user_id m.cache with
  | some c => (some c, m, disk)
  | none =>
    match dictGet user_id disk with
    | none => (none, m, disk)
    | some FileContent.unparsable => (none, m, disk)
    | some (FileContent.parsed c) =>
      if access_token_expired env.now c then
        match env.refreshAt c with
        | RefreshOutcome.failed => (none, m, disk)
        | RefreshOutcome.ok c' =>
          let md := save_credentials m disk user_id c'
          (some c', ⟨dictSet user_id c' md.1.cache⟩, md.2)
      else
        (some c, ⟨dictSet user_id c m.cache⟩, disk)

/-- `OAuthManager.revoke_credentials`: look the credential up (possibly
refreshing); with no credential return `false`; otherwise call the
revocation endpoint, and only if it succeeds remove the cache entry and
delete the file and return `true`; if the endpoint raises, return `false`
leaving the cache and the file as they are. -/
def revoke_credentials (env : Env) (m : OAuthManager)
    (disk : List (String × FileContent)) (user_id : String) :
    Bool × OAuthManager × List (String × FileContent) :=
  match get_stored_credentials env m disk user_id with
  | (none, m₁, disk₁) => (false, m₁, disk₁)
  | (some c, m₁, disk₁) =>
    if env.revokeOk c then
      (true, ⟨dictDelete user_id m₁.cache⟩, dictDelete user_id disk₁)
    else
      (false, m₁, disk₁)

/-! ## Exceptions and the tool-dispatch layer (`server.py`) -/

/-- The Python exceptions that can reach `call_tool`'s `except` chain,
with the class hierarchy of `core/exceptions.py` encoded by constructor:
`authenticationError` and `validationError` are `AdminMCPError` subclasses
with fixed `error_code`s `AUTH_FAILED` and `VALIDATION_ERROR`; `adminMCP`
covers every other `AdminMCPError` subclass with its `error_code`;
`valueError` and `otherExc` are not `AdminMCPError`s. Each carries its
message (`str(e)`). -/
inductive PyExc where
  | authenticationError (message : String)
  | validationError (message : String)
  | adminMCP (error_code : String) (message : String)
  | valueError (message : String)
  | otherExc (message : String)
deriving DecidableEq

/-- `isinstance(e, AdminMCPError)`. -/
def PyExc.isAdminMCPError : PyExc → Bool
  | .authenticationError _ => true
  | .validationError _ => true
  | .adminMCP _ _ => true
  | .valueError _ => false
  | .otherExc _ => false

/-- `isinstance(e, AuthenticationError)`. -/
def PyExc.isAuthenticationError : PyExc → Bool
  | .authenticationError _ => true
  | _ => false

/-- The `error_code` attribute of an `AdminMCPError` (empty for the
exceptions that do not carry one). -/
def PyExc.error_code : PyExc → String
  | .authenticationError _ => "AUTH_FAILED"
  | .validationError _ => "VALIDATION_ERROR"
  | .adminMCP code _ => code
  | .valueError _ => ""
  | .otherExc _ => ""

/-- `str(e)` / the `message` attribute. -/
def PyExc.message : PyExc → String
  | .authenticationError msg => msg
  | .validationError msg => msg
  | .adminMCP _ msg => msg
  | .valueError msg => msg
  | .otherExc msg => msg

/-- `mcp.types.TextContent`: a typed text payload of a tool response. -/
structure TextContent where
  type : String
  text : String
deriving DecidableEq

/-- The `arguments : Any` of a tool call: either not a dict at all, or a
mapping of string keys to values. Values are modelled as strings, which is
all the dispatcher itself inspects (the `user_id` value). -/
inductive PyArgs where
  | notDict
  | dict (entries : List (String × String))
deriving DecidableEq

/-- An `AdminToolHandler` as the dispatcher sees it: its registered name and
its `run_tool`, which returns a response or raises. Handler-internal side
effects are outside the dispatch model. -/
structure AdminToolHandler where
  name : String
  run_tool : PyArgs → Except PyExc (List TextContent)

/-- `USER_ID_ARG` from `core/tool_handler.py`. -/
def USER_ID_ARG : String := "user_id"

/-- `server.add_tool_handler`: unconditional dict assignment
`tool_handlers[handler.name] = handler`. -/
def add_tool_handler (h : AdminToolHandler)
    (reg : List (String × AdminToolHandler)) : List (String × AdminToolHandler) :=
  dictSet h.name h reg

/-- `server.get_tool_handler`: `tool_handlers.get(name)`. -/
def get_tool_handler (nm : String)
    (reg : List (String × AdminToolHandler)) : Option AdminToolHandler :=
  dictGet nm reg

/-- `server.setup_oauth2`: constructs a fresh `OAuthManager()` (whose cache
is empty), asks it for stored credentials, and raises
`AuthenticationError` when none come back. The instructive inner message
(`"No OAuth2 credentials found..."`) is raised inside `setup_oauth2`'s own
`try`, caught by its `except Exception`, and replaced by
`AuthenticationError("Failed to authenticate user {user_id}")`. Returns the
outcome and the (possibly refreshed) disk; the fresh manager is discarded. -/
def setup_oauth2 (env : Env) (disk : List (String × FileContent))
    (user_id : String) : Except PyExc Unit × List (String × FileContent) :=
  match get_stored_credentials env ⟨[]⟩ disk user_id with
  | (none, _, disk₁) =>
    (Except.error (PyExc.authenticationError ("Failed to authenticate user " ++ user_id)), disk₁)
  | (some _, _, disk₁) => (Except.ok (), disk₁)

/-- The `try` body of `server.call_tool`: validate that `arguments` is a
dict carrying `USER_ID_ARG`, authenticate via `setup_oauth2`, resolve the
handler, and run it. Every failure is an exception value. -/
def call_tool_body (env : Env) (disk : List (String × FileContent))
    (reg : List (String × AdminToolHandler)) (nm : String) (args : PyArgs) :
    Except PyExc (List TextContent) × List (String × FileContent) :=
  match args with
  | PyArgs.notDict =>
    (Except.error (PyExc.valueError "Tool arguments must be a dictionary"), disk)
  | PyArgs.dict entries =>
    match dictGet USER_ID_ARG entries with
    | none =>
      (Except.error (PyExc.valueError ("Missing required argument: " ++ USER_ID_ARG)), disk)
    | some user_id =>
      match setup_oauth2 env disk user_id with
      | (Except.error e, disk₁) => (Except.error e, disk₁)
      | (Except.ok _, disk₁) =>
        match get_tool_handler nm reg with
        | none =>
          (Except.error (PyExc.valueError
            ("Unknown tool: " ++ nm ++ ". Available tools: " ++ joinComma (dictKeys reg))), disk₁)
        | some h => (h.run_tool args, disk₁)

/-- The `except` chain of `server.call_tool`, in source order:
`AdminMCPError` first (formatted with its `error_code`), then the
`AuthenticationError` arm (unreachable, since every `AuthenticationError`
is an `AdminMCPError`), then the catch-all `Exception` arm (non-debug
logging, so without the traceback suffix). -/
def call_tool_catch (nm : String) (e : PyExc) : List TextContent :=
  if e.isAdminMCPError then
    [⟨"text", "❌ Error (" ++ e.error_code ++ "): " ++ e.message⟩]
  else if e.isAuthenticationError then
    [⟨"text", "🔐 Authentication Error: " ++ e.message
      ++ "\n\nPlease ensure you have completed the OAuth2 setup and have valid credentials."⟩]
  else
    [⟨"text", "❌ Unexpected error in " ++ nm ++ ": " ++ e.message⟩]

/-- `server.call_tool`: run the body, convert any exception through the
`except` chain; a successful handler result is returned unchanged. -/
def call_tool (env : Env) (disk : List (String × FileContent))
    (reg : List (String × AdminToolHandler)) (nm : String) (args : PyArgs) :
    List TextContent × List (String × FileContent) :=
  match call_tool_body env disk reg nm args with
  | (Except.ok r, disk₁) => (r, disk₁)
  | (Except.error e, disk₁) => (call_tool_catch nm e, disk₁)

/-! ## Pagination (`core/tool_handler.py`, `AdminToolHandler.paginate_results`) -/

/-- One page returned by a Google list API: the extracted
`response.get(results_key, [])` items and `response.get('nextPageToken')`
(an absent or falsy token is `none`). Items are abstracted to strings. -/
structure PageResponse where
  items : List String
  nextPageToken : Option String

/-- The `while` loop of `paginate_results`. `req` is `request_func`, called
with the current page token and, when fewer than 100 items remain to fetch,
a `maxResults` parameter. A raising request propagates (the code's
`handle_google_api_error` always re-raises; the error is abstracted to its
message). The loop stops on a missing token or an empty page, or once
`max_results` items were gathered; a non-empty page strictly grows the
accumulator, which bounds the loop. -/
def paginate_loop (req : Option String → Option Nat → Except String PageResponse)
    (max_results : Nat) (all_results : List String) (page_token : Option String) :
    Except String (List String) :=
  if hlt : all_results.length < max_results then
    let remaining := max_results - all_results.length
    let maxParam : Option Nat := if remaining < 100 then some remaining else none
    match req page_token maxParam with
    | Except.error e => Except.error e
    | Except.ok resp =>
      match h : resp.items with
      | [] => Except.ok all_results
      | _ :: _ =>
        let acc := all_results ++ resp.items
        match resp.nextPageToken with
        | none => Except.ok acc
        | some tok => paginate_loop req max_results acc (some tok)
  else
    Except.ok all_results
termination_by max_results - all_results.length
decreasing_by
  simp only [acc, List.length_append, h, List.length_cons]
  omega

/-- `AdminToolHandler.paginate_results`: run the loop from an empty
accumulator and no page token, then truncate with
`all_results[:max_results]`. -/
def paginate_results (req : Option String → Option Nat → Except String PageResponse)
    (max_results : Nat) : Except String (List String) :=
  (paginate_loop req max_results [] none).map (fun l => l.take max_results)

/-! ## Concrete fixtures used by witnesses and counterexamples -/

/-- An environment in which every network call fails and the clock reads 0. -/
def envNoNet : Env := ⟨0, fun _ => RefreshOutcome.failed, fun _ => false⟩

/-- A credential whose access token expired before time 0 but whose refresh
token is non-empty. -/
def credExpired : Credential := ⟨"at-old", "rt", -1, ["scope-a"], "Bearer"⟩

/-- A live credential (expiry 100, in the future of time 0). -/
def credFresh : Credential := ⟨"at-new", "rt", 100, ["scope-a"], "Bearer"⟩

/-- An environment whose refresh endpoint succeeds, producing `credFresh`,
and whose revocation endpoint succeeds. -/
def envRefreshOk : Env := ⟨0, fun _ => RefreshOutcome.ok credFresh, fun _ => true⟩

/-- An environment in which refresh fails but revocation succeeds. -/
def envRevokeOk : Env := ⟨0, fun _ => RefreshOutcome.failed, fun _ => true⟩

/-- A handler registered as `list_users` whose output marks that it ran. -/
def hListUsers : AdminToolHandler := ⟨"list_users", fun _ => Except.ok [⟨"text", "ran"⟩]⟩

/-- A handler named `t` answering with an empty payload. -/
def hOne : AdminToolHandler := ⟨"t", fun _ => Except.ok []⟩

/-- A second handler also named `t`, with observably different behaviour. -/
def hTwo : AdminToolHandler := ⟨"t", fun _ => Except.ok [⟨"text", "two"⟩]⟩

/-- A handler named `tool_a`. -/
def hToolA : AdminToolHandler := ⟨"tool_a", fun _ => Except.ok []⟩

/-- A handler named `boom` that raises a non-`AdminMCPError` exception. -/
def hBoom : AdminToolHandler := ⟨"boom", fun _ => Except.error (PyExc.otherExc "boom")⟩

/-- A request function whose every page holds three items and a next-page
token, so that the underlying pages together always exceed small limits. -/
def reqThree : Option String → Option Nat → Except String PageResponse :=
  fun _ _ => Except.ok ⟨["a", "b", "c"], some "t"⟩

/-! ## Helper lemmas -/

/-- Looking a key up right after setting it yields the new value. -/
theorem dictGet_set_self {α : Type} (k : String) (v : α) (l : List (String × α)) :
    dictGet k (dictSet k v l) = some v := by
  induction l with
  | nil => simp [dictGet, dictSet]
  | cons p rest ih =>
    by_cases hp : p.1 = k
    · simp [dictGet, dictSet, hp]
    · simp [dictGet, dictSet, hp, ih]

/-- Looking a key up right after deleting it yields nothing. -/
theorem dictGet_delete_self {α : Type} (k : String) (l : List (String × α)) :
    dictGet k (dictDelete k l) = none := by
  induction l with
  | nil => simp [dictGet, dictDelete]
  | cons p rest ih =>
    by_cases hp : p.1 = k
    · simp [dictDelete, hp, ih]
    · simp [dictGet, dictDelete, hp, ih]

/-- `", ".join` of a non-empty list starts with the first element. -/
theorem joinComma_cons (k : String) (ks : List String) :
    ∃ suf, joinComma (k :: ks) = k ++ suf := by
  cases ks with
  | nil => exact ⟨"", (String.append_empty k).symm⟩
  | cons b rest => exact ⟨", " ++ joinComma (b :: rest), by rw [joinComma, String.append_assoc]⟩

/-- Every arm of the `except` chain yields a single text payload. -/
theorem call_tool_catch_shape (nm : String) (e : PyExc) :
    ∃ s, call_tool_catch nm e = [⟨"text", s⟩] := by
  unfold call_tool_catch
  split
  · exact ⟨_, rfl⟩
  · split
    · exact ⟨_, rfl⟩
    · exact ⟨_, rfl⟩

/-! ## Claim theorems -/

/-- C1: for every call envelope (tool name and arguments), every registry and
every handler behaviour — including a handler that raises an arbitrary
exception — `call_tool` either returns the body's successful payload
unchanged, or returns the single structured text payload produced by its
`except` chain; no exception value escapes the dispatcher to the transport
layer. -/
theorem call_tool_never_propagates (env : Env) (disk : List (String × FileContent))
    (reg : List (String × AdminToolHandler)) (nm : String) (args : PyArgs) :
    (∃ r d, call_tool_body env disk reg nm args = (Except.ok r, d) ∧
      call_tool env disk reg nm args = (r, d)) ∨
    (∃ s d, call_tool env disk reg nm args = ([⟨"text", s⟩], d)) := by
  cases hb : call_tool_body env disk reg nm args with
  | mk res d =>
    cases res with
    | ok r =>
      left
      exact ⟨r, d, rfl, by simp [call_tool, hb]⟩
    | error e =>
      right
      obtain ⟨s, hs⟩ := call_tool_catch_shape nm e
      exact ⟨s, d, by simp [call_tool, hb, hs]⟩

/-- C2 counterexample: the envelope `list_users` with an empty arguments
dict (missing `user_id`) yields the generic unexpected-error text produced
by the catch-all arm — the dispatcher raises a plain `ValueError`, not a
`ValidationError` — so the response carries no `VALIDATION_ERROR` code and
is not formatted as an `AdminMCPError` response at all. -/
theorem missing_user_id_counterexample :
    call_tool envNoNet [] [] "list_users" (PyArgs.dict []) =
      ([⟨"text", "❌ Unexpected error in list_users: Missing required argument: user_id"⟩], []) ∧
    strContains "❌ Unexpected error in list_users: Missing required argument: user_id"
      "VALIDATION_ERROR" = false ∧
    strContains "❌ Unexpected error in list_users: Missing required argument: user_id"
      "❌ Error (" = false :=
  ⟨rfl, by decide, by decide⟩

/-- C2 (amended): for every envelope whose arguments dict lacks `user_id`,
`call_tool` returns the generic unexpected-error text naming the missing
argument, with the disk unchanged and independent of the credential state
and registry (so before any credential lookup); it is not a
`VALIDATION_ERROR`-coded response. -/
theorem missing_user_id_generic_error (env : Env) (disk : List (String × FileContent))
    (reg : List (String × AdminToolHandler)) (nm : String)
    (entries : List (String × String)) (hmiss : dictGet USER_ID_ARG entries = none) :
    call_tool env disk reg nm (PyArgs.dict entries) =
      ([⟨"text", "❌ Unexpected error in " ++ nm ++ ": " ++ "Missing required argument: user_id"⟩],
        disk) := by
  simp only [USER_ID_ARG] at hmiss
  simp [call_tool, call_tool_body, hmiss, call_tool_catch, PyExc.isAdminMCPError,
    PyExc.isAuthenticationError, PyExc.message, USER_ID_ARG]

/-- Witness for the amended C2, at the concrete scenario of the spec. -/
theorem missing_user_id_generic_error_witness :
    dictGet USER_ID_ARG ([] : List (String × String)) = none ∧
    call_tool envNoNet [] [] "list_users" (PyArgs.dict []) =
      ([⟨"text", "❌ Unexpected error in " ++ "list_users" ++ ": " ++ "Missing required argument: user_id"⟩],
        []) :=
  ⟨rfl, missing_user_id_generic_error envNoNet [] [] "list_users" [] rfl⟩

/-- C3 counterexample: with an empty cache, loading user `u` whose file is
unparsable yields exactly the same outcome (`none`, state unchanged) as
loading user `u` with no file at all — a corrupt record is reported as the
same outcome as a missing record, and no distinct `CorruptRecord` result
exists in the code (`get_stored_credentials` returns an optional credential
only). -/
theorem corrupt_equals_missing :
    get_stored_credentials envNoNet ⟨[]⟩ [("u", FileContent.unparsable)] "u" =
      (none, ⟨[]⟩, [("u", FileContent.unparsable)]) ∧
    get_stored_credentials envNoNet ⟨[]⟩ [] "u" = (none, ⟨[]⟩, []) :=
  ⟨rfl, rfl⟩

/-- C3 (amended): on a cache miss, a missing file and an unparsable file both
make `get_stored_credentials` return `none`; the two failure cases are
indistinguishable to the caller. -/
theorem load_missing_or_corrupt_absent (env : Env) (m : OAuthManager)
    (disk : List (String × FileContent)) (uid : String)
    (hc : dictGet uid m.cache = none)
    (hf : dictGet uid disk = none ∨ dictGet uid disk = some FileContent.unparsable) :
    (get_stored_credentials env m disk uid).1 = none := by
  rcases hf with hf | hf <;> simp [get_stored_credentials, hc, hf]

/-- Witness for the amended C3: a concrete unparsable file. -/
theorem load_missing_or_corrupt_absent_witness :
    dictGet "u" (⟨[]⟩ : OAuthManager).cache = none ∧
    (dictGet "u" [("u", FileContent.unparsable)] = none ∨
      dictGet "u" [("u", FileContent.unparsable)] = some FileContent.unparsable) ∧
    (get_stored_credentials envNoNet ⟨[]⟩ [("u", FileContent.unparsable)] "u").1 = none :=
  ⟨rfl, Or.inr rfl,
    load_missing_or_corrupt_absent envNoNet ⟨[]⟩ [("u", FileContent.unparsable)] "u" rfl (Or.inr rfl)⟩

/-- C4 counterexample: user `u` is in the cache with `credExpired` (expiry
in the past, non-empty refresh token) in an environment where refresh would
succeed and yield `credFresh` (expiry in the future); yet
`get_stored_credentials` returns the stale cached credential unchanged —
its expiry still in the past — and leaves the store empty: a cache hit is
returned without any expiry validation or refresh. -/
theorem cached_expired_not_refreshed :
    get_stored_credentials envRefreshOk ⟨[("u", credExpired)]⟩ [] "u" =
      (some credExpired, ⟨[("u", credExpired)]⟩, []) ∧
    access_token_expired envRefreshOk.now credExpired = true ∧
    credExpired.refresh_token ≠ "" ∧
    envRefreshOk.refreshAt credExpired = RefreshOutcome.ok credFresh ∧
    access_token_expired envRefreshOk.now credFresh = false :=
  ⟨rfl, by decide, by decide, rfl, by decide⟩

/-- C4 (amended): refresh-on-expiry holds on the store-load path only. If
the user misses the cache, their stored credential has expiry in the past,
and the refresh endpoint succeeds with a credential whose expiry is in the
future, then `get_stored_credentials` returns the refreshed, non-expired
credential, and both the on-disk store and the cache reflect the refreshed
value. (A credential already in the cache is returned without expiry
validation.) -/
theorem refresh_on_expiry_store_path (env : Env) (m : OAuthManager)
    (disk : List (String × FileContent)) (uid : String) (c c' : Credential)
    (hc : dictGet uid m.cache = none)
    (hf : dictGet uid disk = some (FileContent.parsed c))
    (hexp : access_token_expired env.now c = true)
    (hr : env.refreshAt c = RefreshOutcome.ok c')
    (hfut : env.now < c'.expiry) :
    (get_stored_credentials env m disk uid).1 = some c' ∧
    access_token_expired env.now c' = false ∧
    dictGet uid (get_stored_credentials env m disk uid).2.2 = some (FileContent.parsed c') ∧
    dictGet uid (get_stored_credentials env m disk uid).2.1.cache = some c' := by
  refine ⟨?_, ?_, ?_, ?_⟩
  · simp [get_stored_credentials, hc, hf, hexp, hr]
  · simp [access_token_expired]
    omega
  · simp [get_stored_credentials, hc, hf, hexp, hr, save_credentials, dictGet_set_self]
  · simp [get_stored_credentials, hc, hf, hexp, hr, save_credentials, dictGet_set_self]

/-- Witness for the amended C4: a stored expired credential is refreshed to
`credFresh` and persisted. -/
theorem refresh_on_expiry_store_path_witness :
    dictGet "u" (⟨[]⟩ : OAuthManager).cache = none ∧
    dictGet "u" [("u", FileContent.parsed credExpired)] = some (FileContent.parsed credExpired) ∧
    access_token_expired envRefreshOk.now credExpired = true ∧
    envRefreshOk.refreshAt credExpired = RefreshOutcome.ok credFresh ∧
    envRefreshOk.now < credFresh.expiry ∧
    (get_stored_credentials envRefreshOk ⟨[]⟩ [("u", FileContent.parsed credExpired)] "u").1 =
      some credFresh :=
  ⟨rfl, rfl, by decide, rfl, by decide,
    (refresh_on_expiry_store_path envRefreshOk ⟨[]⟩ [("u", FileContent.parsed credExpired)] "u"
      credExpired credFresh rfl rfl (by decide) rfl (by decide)).1⟩

/-- C5 counterexample: user `u` has a stored credential (in the cache) and
the remote revocation endpoint fails; `revoke_credentials` then returns
`false` and leaves both the cache and the on-disk file in place — removal
is not performed "regardless of whether the remote revocation call
succeeded", contradicting the claim. -/
theorem revoke_remote_failure_keeps_state :
    revoke_credentials envNoNet ⟨[("u", credFresh)]⟩ [("u", FileContent.parsed credFresh)] "u" =
      (false, ⟨[("u", credFresh)]⟩, [("u", FileContent.parsed credFresh)]) ∧
    envNoNet.revokeOk credFresh = false :=
  ⟨rfl, rfl⟩

/-- C5 (amended): `revoke_credentials` removes the credential from the cache
and the store only when the remote revocation call succeeds, in which case
it returns `true`; and whenever it returns `true`, the cache entry and the
file are gone and a subsequent `get_stored_credentials` returns `none`. -/
theorem revoke_true_clears_state (env : Env) (m : OAuthManager)
    (disk : List (String × FileContent)) (uid : String)
    (m' : OAuthManager) (d' : List (String × FileContent))
    (h : revoke_credentials env m disk uid = (true, m', d')) :
    dictGet uid m'.cache = none ∧ dictGet uid d' = none ∧
    (get_stored_credentials env m' d' uid).1 = none := by
  unfold revoke_credentials at h
  cases hg : get_stored_credentials env m disk uid with
  | mk res rest =>
    cases rest with
    | mk m₁ d₁ =>
      rw [hg] at h
      cases res with
      | none => simp at h
      | some c =>
        simp only at h
        by_cases hrv : env.revokeOk c
        · rw [if_pos hrv] at h
          obtain ⟨hm, hd⟩ : (⟨dictDelete uid m₁.cache⟩ : OAuthManager) = m' ∧ dictDelete uid d₁ = d' := by
            constructor
            · exact congrArg Prod.fst (congrArg Prod.snd h)
            · exact congrArg Prod.snd (congrArg Prod.snd h)
          subst hm
          subst hd
          refine ⟨dictGet_delete_self uid m₁.cache, dictGet_delete_self uid d₁, ?_⟩
          simp [get_stored_credentials, dictGet_delete_self]
        · rw [if_neg hrv] at h
          simp at h

/-- Witness for the amended C5: a concrete successful revocation clears the
cache and the file. -/
theorem revoke_true_clears_state_witness :
    revoke_credentials envRevokeOk ⟨[("u", credFresh)]⟩ [("u", FileContent.parsed credFresh)] "u" =
      (true, ⟨[]⟩, []) ∧
    dictGet "u" (⟨[]⟩ : OAuthManager).cache = none ∧
    dictGet "u" ([] : List (String × FileContent)) = none ∧
    (get_stored_credentials envRevokeOk ⟨[]⟩ [] "u").1 = none :=
  ⟨rfl,
    (revoke_true_clears_state envRevokeOk ⟨[("u", credFresh)]⟩
      [("u", FileContent.parsed credFresh)] "u" ⟨[]⟩ [] rfl).1,
    (revoke_true_clears_state envRevokeOk ⟨[("u", credFresh)]⟩
      [("u", FileContent.parsed credFresh)] "u" ⟨[]⟩ [] rfl).2.1,
    (revoke_true_clears_state envRevokeOk ⟨[("u", credFresh)]⟩
      [("u", FileContent.parsed credFresh)] "u" ⟨[]⟩ [] rfl).2.2⟩

/-- C6 counterexample: registering `hOne` under name `t` and then `hTwo`
under the same name succeeds (`add_tool_handler` is a total dict
assignment, with no `DuplicateTool` failure in its type or its code) and
silently replaces the first handler: the registry now resolves `t` to a
handler behaving like `hTwo`, not like `hOne`. -/
theorem duplicate_registration_replaces :
    (get_tool_handler "t" (add_tool_handler hTwo (add_tool_handler hOne []))).map
      (fun h => h.run_tool PyArgs.notDict) = some (Except.ok [⟨"text", "two"⟩]) ∧
    (some (Except.ok [(⟨"text", "two"⟩ : TextContent)]) : Option (Except PyExc (List TextContent))) ≠
      some (Except.ok []) ∧
    hOne.run_tool PyArgs.notDict = Except.ok [] :=
  ⟨rfl, by simp, rfl⟩

/-- C6 (amended): a second registration under an already-registered name
succeeds and silently replaces the existing handler — after
`add_tool_handler h`, lookup of `h.name` yields `h`, whatever was
registered before. -/
theorem register_silently_replaces (reg : List (String × AdminToolHandler))
    (h : AdminToolHandler) :
    get_tool_handler h.name (add_tool_handler h reg) = some h := by
  unfold get_tool_handler add_tool_handler
  exact dictGet_set_self h.name h reg

/-- C7: with a valid authenticated user (stored, non-expired credential),
calling an unregistered tool name returns the dispatcher's structured
unknown-tool error text, whose payload embeds the comma-join of all
registered tool names — and that join begins with a registered tool name,
so the payload includes at least one registered tool name whenever the
registry is non-empty. -/
theorem unknown_tool_lists_registered (env : Env) (disk : List (String × FileContent))
    (reg : List (String × AdminToolHandler)) (entries : List (String × String))
    (uid nm : String) (c : Credential)
    (hu : dictGet USER_ID_ARG entries = some uid)
    (hf : dictGet uid disk = some (FileContent.parsed c))
    (hlive : access_token_expired env.now c = false)
    (hmiss : get_tool_handler nm reg = none)
    (hne : reg ≠ []) :
    (call_tool env disk reg nm (PyArgs.dict entries)).1 =
      [⟨"text", "❌ Unexpected error in " ++ nm ++ ": " ++
        ("Unknown tool: " ++ nm ++ ". Available tools: " ++ joinComma (dictKeys reg))⟩] ∧
    ∃ t suf, t ∈ dictKeys reg ∧ joinComma (dictKeys reg) = t ++ suf := by
  simp only [USER_ID_ARG] at hu
  constructor
  · simp [call_tool, call_tool_body, setup_oauth2, get_stored_credentials, dictGet, hu, hf,
      hlive, hmiss, call_tool_catch, PyExc.isAdminMCPError, PyExc.isAuthenticationError,
      PyExc.message, USER_ID_ARG]
  · cases reg with
    | nil => exact absurd rfl hne
    | cons p rest =>
      obtain ⟨suf, hsuf⟩ := joinComma_cons p.1 (dictKeys rest)
      refine ⟨p.1, suf, by simp [dictKeys], ?_⟩
      simpa [dictKeys] using hsuf

/-- Witness for C7: user `u` holds a live credential, the registry holds
`tool_a` only, and tool `nope` is called. -/
theorem unknown_tool_lists_registered_witness :
    dictGet USER_ID_ARG [("user_id", "u")] = some "u" ∧
    dictGet "u" [("u", FileContent.parsed credFresh)] = some (FileContent.parsed credFresh) ∧
    access_token_expired envNoNet.now credFresh = false ∧
    get_tool_handler "nope" [("tool_a", hToolA)] = none ∧
    ((call_tool envNoNet [("u", FileContent.parsed credFresh)] [("tool_a", hToolA)] "nope"
        (PyArgs.dict [("user_id", "u")])).1 =
      [⟨"text", "❌ Unexpected error in " ++ "nope" ++ ": " ++
        ("Unknown tool: " ++ "nope" ++ ". Available tools: " ++
          joinComma (dictKeys [("tool_a", hToolA)]))⟩] ∧
      ∃ t suf, t ∈ dictKeys [("tool_a", hToolA)] ∧
        joinComma (dictKeys [("tool_a", hToolA)]) = t ++ suf) :=
  ⟨rfl, rfl, by decide, rfl,
    unknown_tool_lists_registered envNoNet [("u", FileContent.parsed credFresh)]
      [("tool_a", hToolA)] [("user_id", "u")] "u" "nope" credFresh rfl rfl (by decide) rfl
      (List.cons_ne_nil _ _)⟩

/-- C8: saving a credential and then loading it back for the same user on
the same manager yields an equal credential (`save_credentials` populates
the cache and writes the file; `get_stored_credentials` then returns
exactly the saved credential), and the persisted record holds exactly the
saved credential. -/
theorem save_then_load_roundtrip (env : Env) (m : OAuthManager)
    (disk : List (String × FileContent)) (uid : String) (c : Credential) :
    (get_stored_credentials env (save_credentials m disk uid c).1
      (save_credentials m disk uid c).2 uid).1 = some c ∧
    dictGet uid (save_credentials m disk uid c).2 = some (FileContent.parsed c) := by
  constructor
  · simp [get_stored_credentials, save_credentials, dictGet_set_self]
  · simp [save_credentials, dictGet_set_self]

/-- C9 counterexample: user `u` presents a valid `user_id` but has no stored
credential; the response does carry `error_code` `AUTH_FAILED` and no
handler runs, but its message is the generic `"Failed to authenticate user
u"` — it contains no instruction to complete authorization (no "authoriz",
"OAuth" or "complete" anywhere): the instructive inner message is replaced
inside `setup_oauth2`, and the `AdminMCPError` arm formats without
guidance. -/
theorem auth_failed_no_guidance :
    call_tool envNoNet [] [("list_users", hListUsers)] "list_users"
        (PyArgs.dict [("user_id", "u")]) =
      ([⟨"text", "❌ Error (AUTH_FAILED): Failed to authenticate user u"⟩], []) ∧
    strContains "❌ Error (AUTH_FAILED): Failed to authenticate user u" "authoriz" = false ∧
    strContains "❌ Error (AUTH_FAILED): Failed to authenticate user u" "OAuth" = false ∧
    strContains "❌ Error (AUTH_FAILED): Failed to authenticate user u" "complete" = false :=
  ⟨rfl, by decide, by decide, by decide⟩

/-- C9 (amended): for every envelope carrying `user_id` for a user with no
credential file, `call_tool` returns the `AUTH_FAILED`-coded
`AuthenticationError` response whose message is the generic
`"Failed to authenticate user {user_id}"` (without authorization guidance),
leaving the disk unchanged; the result holds for every registry and handler
behaviour, so no handler is executed for the call. -/
theorem no_credentials_auth_failed (env : Env) (disk : List (String × FileContent))
    (reg : List (String × AdminToolHandler)) (nm : String)
    (entries : List (String × String)) (uid : String)
    (hu : dictGet USER_ID_ARG entries = some uid)
    (hf : dictGet uid disk = none) :
    call_tool env disk reg nm (PyArgs.dict entries) =
      ([⟨"text", "❌ Error (" ++ "AUTH_FAILED" ++ "): " ++ ("Failed to authenticate user " ++ uid)⟩],
        disk) := by
  simp only [USER_ID_ARG] at hu
  simp [call_tool, call_tool_body, setup_oauth2, get_stored_credentials, dictGet, hu, hf,
    call_tool_catch, PyExc.isAdminMCPError, PyExc.error_code, PyExc.message, USER_ID_ARG]

/-- Witness for the amended C9. -/
theorem no_credentials_auth_failed_witness :
    dictGet USER_ID_ARG [("user_id", "u")] = some "u" ∧
    dictGet "u" ([] : List (String × FileContent)) = none ∧
    call_tool envNoNet [] [("list_users", hListUsers)] "list_users"
        (PyArgs.dict [("user_id", "u")]) =
      ([⟨"text", "❌ Error (" ++ "AUTH_FAILED" ++ "): " ++ ("Failed to authenticate user " ++ "u")⟩],
        []) :=
  ⟨rfl, rfl,
    no_credentials_auth_failed envNoNet [] [("list_users", hListUsers)] "list_users"
      [("user_id", "u")] "u" rfl rfl⟩

/-- C10: whenever `paginate_results` returns successfully, the returned list
holds at most `max_results` items, even when the underlying pages together
hold more (the final `[:max_results]` truncation bounds the result). -/
theorem paginate_results_bounded
    (req : Option String → Option Nat → Except String PageResponse)
    (max_results : Nat) (l : List String)
    (h : paginate_results req max_results = Except.ok l) :
    l.length ≤ max_results := by
  unfold paginate_results at h
  cases hp : paginate_loop req max_results [] none with
  | error e => rw [hp] at h; simp [Except.map] at h
  | ok l₀ =>
    rw [hp] at h
    simp only [Except.map, Except.ok.injEq] at h
    subst h
    simp [List.length_take]

/-- Witness for C10: every page holds three items yet the result for
`max_results = 2` has exactly two. -/
theorem paginate_results_bounded_witness :
    paginate_results reqThree 2 = Except.ok ["a", "b"] ∧
    (["a", "b"] : List String).length ≤ 2 :=
  ⟨by simp [paginate_results, paginate_loop, reqThree, Except.map],
    paginate_results_bounded reqThree 2 ["a", "b"]
      (by simp [paginate_results, paginate_loop, reqThree, Except.map])⟩

end GSuiteAdmin
